import Mathlib

set_option autoImplicit false

/-!
Verification development for the crowdflower client library.

The Python source under crowdflower/ is shallowly embedded here:

* JSON values (`Val`) model the Python values held in the `_json`
  baseline and `_changes` overlay dictionaries.
* Python dictionaries are modelled as insertion-ordered association
  lists (`alookup`, `aset`, `aupdate` mirror `d.get`, `d[k] = v`, and
  `d.update(other)` respectively).
* `BaseState` models the mutable state of a `crowdflower.base.Base`
  instance: the `_json` baseline and the `_changes` overlay.
* The descriptor classes `Attribute`, `RoAttribute` and `WoAttribute`
  of base.py become `attrGet` / `attrSet` dispatched on a `Mode`.
* `Base.update` (base.py lines 87-92) becomes `baseUpdate` / `commit`;
  `Job.update` (job.py lines 112-141) becomes `jobUpdate`, which also
  records the change sets handed to the network layer so that claims
  about the absence of network calls can be stated.
* The response handling of `Client.call` (client.py lines 121-162)
  becomes `callResult`; the attribute flattening `Client._make_cf_attrs`
  and `Client._recursive_items` (client.py lines 193-222) become
  `mkCfAttrs` and `recursiveItems`.

Python exceptions are modelled by the `CfError` type; each constructor
documents the exception raised by the source.
-/

namespace Crowdflower

/-- JSON-ish values stored in the baseline and overlay dictionaries of a
resource. Mirrors the value space the Python code manipulates. -/
inductive Val where
  | null : Val
  | bool : Bool → Val
  | int : Int → Val
  | str : String → Val
  | list : List Val → Val
  | dict : List (String × Val) → Val

/-- Python truthiness of a value, as used by the required-attribute test
in Job.update (`if not getattr(self, attr)`). -/
def Val.falsy : Val → Bool
  | .null => true
  | .bool b => !b
  | .int n => n == 0
  | .str s => s == ""
  | .list xs => xs.isEmpty
  | .dict fs => fs.isEmpty

/-- Lookup in a Python dictionary modelled as an insertion-ordered
association list; mirrors `d.get(k)` / `d[k]`. -/
def alookup {α : Type} : List (String × α) → String → Option α
  | [], _ => none
  | (k, v) :: rest, key => if k = key then some v else alookup rest key

/-- Store into a Python dictionary: `d[k] = v` replaces the value of an
existing key in place (keeping its position) and appends a new key. -/
def aset {α : Type} : List (String × α) → String → α → List (String × α)
  | [], key, v => [(key, v)]
  | (k, w) :: rest, key, v =>
    if k = key then (key, v) :: rest else (k, w) :: aset rest key v

/-- Mirror of `d.update(other)`: assign every key/value pair of `other`
into `d`, in order. -/
def aupdate {α : Type} (d other : List (String × α)) : List (String × α) :=
  other.foldl (fun acc kv => aset acc kv.1 kv.2) d

/-- Errors raised by the embedded operations. Each constructor records
which Python exception it stands for:

* `immutableField f` — the `AttributeError` raised by
  `RoAttribute.__set__` with message naming `f` (base.py lines 30-32);
  the ImmutableFieldError of the spec taxonomy.
* `writeOnlyField f` — the `AttributeError` raised by
  `WoAttribute.__get__` with message naming `f` (base.py lines 37-42);
  the WriteOnlyFieldError of the spec taxonomy.
* `keyError k` — the `KeyError` escaping `self._json[self.name]` when a
  field is in neither store (base.py lines 21-22, 105-109).
* `missingRequired f` — the `RuntimeError` raised by `Job.update` for a
  missing required attribute `f` (job.py lines 134-138); the
  ValidationError of the spec taxonomy.
* `apiError msg` — `ApiError` raised with a message string by
  `Client.call` when the transport raises (client.py lines 131-132);
  the RemoteError of the spec taxonomy.
* `httpError status` — `ApiError` raised after `resp.raise_for_status`
  signals a 4xx/5xx response (client.py lines 134-140).
* `apiErrorPayload v` — `ApiError` raised from an error payload in the
  response body (client.py lines 156-160). -/
inductive CfError where
  | immutableField : String → CfError
  | writeOnlyField : String → CfError
  | keyError : String → CfError
  | missingRequired : String → CfError
  | apiError : String → CfError
  | httpError : Nat → CfError
  | apiErrorPayload : Val → CfError

/-- State of a `crowdflower.base.Base` instance: `json` is the `_json`
baseline dictionary passed at construction, `changes` is the `_changes`
overlay, initialised empty (base.py lines 75-78). -/
structure BaseState where
  json : List (String × Val)
  changes : List (String × Val)

/-- Access mode of a declared attribute: `Attribute` is read-write,
`RoAttribute` read-only, `WoAttribute` write-only. -/
inductive Mode where
  | rw : Mode
  | ro : Mode
  | wo : Mode
deriving DecidableEq

/-- Mirror of `Attribute.__get__` (base.py lines 15-22):
`self._changes.get(self.name, self._json[self.name])`. Python evaluates
the default argument of `dict.get` eagerly, so the baseline lookup
`_json[name]` runs first: a name absent from the baseline raises
`KeyError` even when the overlay holds it. Only when the baseline has
the name does `.get` return the overlay value when present, else that
baseline value. -/
def attrGet (st : BaseState) (name : String) : Except CfError Val :=
  match alookup st.json name with
  | none => .error (.keyError name)
  | some dflt =>
    match alookup st.changes name with
    | some v => .ok v
    | none => .ok dflt

/-- Mirror of `Attribute.__set__` (base.py lines 24-25): store into the
overlay unconditionally. -/
def attrSet (st : BaseState) (name : String) (v : Val) : BaseState :=
  { st with changes := aset st.changes name v }

/-- Read a declared field through its descriptor. `RoAttribute` inherits
`Attribute.__get__`; `WoAttribute.__get__` raises naming the field. An
undeclared name has no descriptor; reading it is out of scope here and
modelled as a `keyError` (in Python it raises `AttributeError`). -/
def getField (fields : List (String × Mode)) (st : BaseState)
    (name : String) : Except CfError Val :=
  match alookup fields name with
  | none => .error (.keyError name)
  | some .rw => attrGet st name
  | some .ro => attrGet st name
  | some .wo => .error (.writeOnlyField name)

/-- Write a declared field through its descriptor. `RoAttribute.__set__`
raises naming the field; `WoAttribute` inherits `Attribute.__set__` and
stores into the overlay. Assigning an undeclared name in Python stores
into the instance dictionary, touching neither baseline nor overlay, so
it is modelled as leaving the tracked state unchanged. -/
def setField (fields : List (String × Mode)) (st : BaseState)
    (name : String) (v : Val) : Except CfError BaseState :=
  match alookup fields name with
  | none => .ok st
  | some .rw => .ok (attrSet st name v)
  | some .ro => .error (.immutableField name)
  | some .wo => .ok (attrSet st name v)

/-- Mirror of `Base.__getitem__` (base.py lines 105-109):
`self._changes.get(item, self._json[item])`, with no descriptor
dispatch and hence no access-mode checks. As in `attrGet`, the default
`self._json[item]` is evaluated eagerly, so a key absent from the
baseline raises `KeyError` even when the overlay holds it. -/
def getItem (st : BaseState) (item : String) : Except CfError Val :=
  match alookup st.json item with
  | none => .error (.keyError item)
  | some dflt =>
    match alookup st.changes item with
    | some v => .ok v
    | none => .ok dflt

/-- Mirror of `Base.update` success path (base.py lines 87-92) once
`_send_changes` has returned `reply`: `self._json.update(reply)` then
`self._changes = {}`. This is the commit step of synchronisation. -/
def commit (st : BaseState) (reply : List (String × Val)) : BaseState :=
  { json := aupdate st.json reply, changes := [] }

/-- Mirror of `Base.update` (base.py lines 87-92) with the network send
abstracted as a function of the overlay. The argument of
`self._json.update(...)` is evaluated first, so when `_send_changes`
raises, neither the baseline nor the overlay has been touched: the
returned state is the input state paired with the error. -/
def baseUpdate (st : BaseState)
    (send : List (String × Val) → Except CfError (List (String × Val))) :
    BaseState × Option CfError :=
  match send st.changes with
  | .error e => (st, some e)
  | .ok reply => (commit st reply, none)

/-- Field declarations of `crowdflower.job.Job` (job.py lines 35-96):
`RoAttribute` entries are read-only, `Attribute` entries read-write and
the single `WoAttribute` (`uri`, line 74) write-only. -/
def jobFields : List (String × Mode) :=
  [ ("completed", .ro), ("completed_at", .ro), ("created_at", .ro),
    ("crowd_costs", .ro), ("gold", .ro), ("gold_per_assignment", .ro),
    ("golds_count", .ro), ("id", .ro), ("judgments_count", .ro),
    ("state", .ro), ("units_count", .ro), ("updated_at", .ro),
    ("alias", .rw), ("auto_order", .rw), ("auto_order_threshold", .rw),
    ("auto_order_timeout", .rw), ("cml", .rw), ("confidence_fields", .rw),
    ("css", .rw), ("excluded_countries", .rw),
    ("expected_judgments_per_unit", .rw), ("fields", .rw),
    ("included_countries", .rw), ("instructions", .rw), ("js", .rw),
    ("judgments_per_unit", .rw), ("max_judgments_per_unit", .rw),
    ("min_unit_confidence", .rw), ("minimum_requirements", .rw),
    ("options", .rw), ("payment_cents", .rw), ("support_email", .rw),
    ("title", .rw), ("units_per_assignment", .rw),
    ("units_remain_finalized", .rw), ("uri", .wo),
    ("variable_judgments_mode", .rw), ("webhook_uri", .rw),
    ("copied_from", .ro), ("design_verified", .ro),
    ("desired_requirements", .ro), ("execution_mode", .ro),
    ("language", .ro), ("max_judgments_per_ip", .ro),
    ("max_judgments_per_worker", .ro), ("max_work_per_network", .ro),
    ("minimum_account_age_seconds", .ro), ("order_approved", .ro),
    ("pages_per_assignment", .ro), ("project_number", .ro),
    ("public_data", .ro), ("quiz_mode_enabled", .ro),
    ("require_worker_login", .ro), ("secret", .ro),
    ("send_judgments_webhook", .ro), ("worker_ui_remix", .ro) ]

/-- Required attributes checked by `Job.update` (job.py line 134). The
Python code iterates the set literal of these three names in an
unspecified (hash-dependent) order; this model fixes the listed order.
Every property proved below that depends on this list is insensitive to
the order chosen, except that the single name appearing in the raised
error would change with the order. -/
def jobRequiredAttrs : List String := ["title", "instructions", "cml"]

/-- Mirror of the loop in `Job.update` (job.py lines 134-138): each
required attribute is read through `getattr`, which dispatches to
`Attribute.__get__` (eager baseline lookup, overlay value preferred
when the key is also in the baseline); a falsy value stops the loop
with a `RuntimeError` naming only that attribute, and a `KeyError`
from the baseline lookup propagates. -/
def checkRequired (st : BaseState) : List String → Except CfError Unit
  | [] => .ok ()
  | a :: rest =>
    match attrGet st a with
    | .error e => .error e
    | .ok v =>
      if v.falsy then .error (.missingRequired a) else checkRequired st rest

/-- Mirror of `Job.update` (job.py lines 112-141): validate the required
attributes, then run `Base.update`, whose `_send_changes` is
`Client.update_job(self.id, changes)`. The second component records the
change set of every network call made, so that claims about the absence
of network calls are statable: validation failure makes no call, while
reaching `Base.update` always sends exactly one call carrying the
current overlay, even when the overlay is empty. -/
def jobUpdate (st : BaseState)
    (send : List (String × Val) → Except CfError (List (String × Val))) :
    (BaseState × Option CfError) × List (List (String × Val)) :=
  match checkRequired st jobRequiredAttrs with
  | .error e => ((st, some e), [])
  | .ok _ => (baseUpdate st send, [st.changes])

/-- Outcome of the underlying HTTP request in `Client.call`: either
`requests.request` raised (message string), or a response arrived with
a status code and a parsed JSON body. -/
inductive HttpResult where
  | exn : String → HttpResult
  | resp : Nat → List (String × Val) → HttpResult

/-- Mirror of the response handling in `Client.call` (client.py lines
121-162) on the JSON path: a transport exception is wrapped into
`ApiError` with a message carrying the cause; `resp.raise_for_status`
turns a 4xx/5xx status into `ApiError`; a body containing an `error` or
`errors` entry raises `ApiError` with that payload; otherwise the body
is returned. -/
def callResult : HttpResult → Except CfError (List (String × Val))
  | .exn e => .error (.apiError ("Api request failed: " ++ e))
  | .resp status body =>
    if 400 ≤ status ∧ status < 600 then .error (.httpError status)
    else
      match alookup body "error" with
      | some v => .error (.apiErrorPayload v)
      | none =>
        match alookup body "errors" with
        | some v => .error (.apiErrorPayload v)
        | none => .ok body

/-- Mirror of `Client._recursive_items` (client.py lines 193-210): walk
a nested dictionary in insertion order, yielding `(path, value)` pairs;
a dictionary value recurses with the key appended to the path, any
other value is a leaf. -/
def recursiveItems : List (String × Val) → List String → List (List String × Val)
  | [], _ => []
  | (k, .dict d) :: rest, path =>
    recursiveItems d (path ++ [k]) ++ recursiveItems rest path
  | (k, v) :: rest, path => (path ++ [k], v) :: recursiveItems rest path

/-- Mirror of the Python expression joining path segments with the two
characters right-bracket left-bracket (client.py line 221). -/
def joinBrackets : List String → String
  | [] => ""
  | [s] => s
  | s :: rest => s ++ "][" ++ joinBrackets rest

/-- Parameter name produced by `Client._make_cf_attrs` for resource type
`t` and path `p`: the type name followed by every segment in square
brackets (client.py lines 220-221). -/
def fmtAttr (t : String) (p : List String) : String :=
  t ++ "[" ++ joinBrackets p ++ "]"

/-- Mirror of `Client._make_cf_attrs` (client.py lines 212-222). The
Python dict comprehension consumes `_recursive_items` in generator
order; this model keeps the produced entries as the ordered list of
(parameter name, value) pairs. -/
def mkCfAttrs (t : String) (attrs : List (String × Val)) : List (String × Val) :=
  (recursiveItems attrs []).map fun pv => (fmtAttr t pv.1, pv.2)

/-- Operations on a change-tracked record that can alter its state:
an attribute assignment, a successful synchronisation carrying the
server reply, and a synchronisation whose network send failed. Reads
(`getField`, `getItem`, `attrGet`) never change state. -/
inductive Op where
  | setAttr : String → Val → Op
  | sync : List (String × Val) → Op
  | syncFail : CfError → Op

/-- State transition of a record under one operation. A failed
assignment (read-only field) raises before touching either store, so
the state is unchanged; a failed synchronisation leaves the state
unchanged (see `baseUpdate`). -/
def step (fields : List (String × Mode)) (st : BaseState) : Op → BaseState
  | .setAttr f v =>
    match setField fields st f v with
    | .ok st2 => st2
    | .error _ => st
  | .sync reply => commit st reply
  | .syncFail _ => st

/-- Run a sequence of operations from a starting state. -/
def runOps (fields : List (String × Mode)) (st : BaseState)
    (ops : List Op) : BaseState :=
  ops.foldl (step fields) st

/-- Overlay invariant as the spec states it: every overlay key is a
declared read-write field. -/
def overlayRW (fields : List (String × Mode)) (st : BaseState) : Prop :=
  ∀ k ∈ st.changes.map Prod.fst, alookup fields k = some .rw

/-- Overlay invariant as the code maintains it: every overlay key is a
declared read-write or write-only field (`WoAttribute` inherits
`Attribute.__set__`, so write-only assignments also land in the
overlay). -/
def overlayWritable (fields : List (String × Mode)) (st : BaseState) : Prop :=
  ∀ k ∈ st.changes.map Prod.fst,
    alookup fields k = some .rw ∨ alookup fields k = some .wo

/-- Nested singleton dictionary chain along `path` ending in leaf `v`;
test harness for the arbitrary-depth flattening property. -/
def deepNest : List String → Val → List (String × Val)
  | [], _ => []
  | [k], v => [(k, v)]
  | k :: rest, v => [(k, .dict (deepNest rest v))]

/-- Field names appearing in the message of an error: each of the
attribute and validation errors of base.py and job.py interpolates
exactly one name into its message string; the remote errors name no
field. -/
def errNames : CfError → List String
  | .immutableField f => [f]
  | .writeOnlyField f => [f]
  | .keyError k => [k]
  | .missingRequired f => [f]
  | .apiError _ => []
  | .httpError _ => []
  | .apiErrorPayload _ => []

/-! ### Dictionary lemmas -/

theorem alookup_aset {α : Type} (d : List (String × α)) (k k2 : String) (v : α) :
    alookup (aset d k v) k2 = if k = k2 then some v else alookup d k2 := by
  induction d with
  | nil => simp [aset, alookup]
  | cons hd tl ih =>
    obtain ⟨a, b⟩ := hd
    simp only [aset]
    by_cases hak : a = k
    · subst hak
      simp only [if_pos rfl, alookup]
      by_cases hk2 : a = k2 <;> simp [hk2]
    · simp only [if_neg hak, alookup]
      by_cases hak2 : a = k2
      · subst hak2
        have hk2 : ¬(k = a) := fun h => hak h.symm
        simp [hk2]
      · simp [hak2, ih]

theorem mem_keys_of_alookup {α : Type} (d : List (String × α)) (k : String) (v : α)
    (h : alookup d k = some v) : k ∈ d.map Prod.fst := by
  induction d with
  | nil => simp [alookup] at h
  | cons hd tl ih =>
    obtain ⟨a, b⟩ := hd
    simp only [alookup] at h
    by_cases hak : a = k
    · simp [hak]
    · simp only [if_neg hak] at h
      simp [ih h]

theorem alookup_eq_none {α : Type} (d : List (String × α)) (k : String) :
    alookup d k = none ↔ k ∉ d.map Prod.fst := by
  induction d with
  | nil => simp [alookup]
  | cons hd tl ih =>
    obtain ⟨a, b⟩ := hd
    by_cases hak : a = k
    · subst hak
      simp [alookup]
    · have hka : ¬(k = a) := fun h => hak h.symm
      simp [alookup, hak, hka, ih]

theorem mem_keys_aset {α : Type} (d : List (String × α)) (k k2 : String) (v : α)
    (h : k2 ∈ (aset d k v).map Prod.fst) : k2 = k ∨ k2 ∈ d.map Prod.fst := by
  by_cases hk : k = k2
  · exact Or.inl hk.symm
  · right
    by_contra hmem
    have hnone : alookup d k2 = none := (alookup_eq_none d k2).mpr hmem
    have h2 : alookup (aset d k v) k2 = none := by
      rw [alookup_aset, if_neg hk]
      exact hnone
    exact (alookup_eq_none _ k2).mp h2 h

theorem aupdate_nil {α : Type} (d : List (String × α)) : aupdate d [] = d := rfl

theorem aupdate_cons {α : Type} (d : List (String × α)) (kv : String × α)
    (rest : List (String × α)) :
    aupdate d (kv :: rest) = aupdate (aset d kv.1 kv.2) rest := rfl

theorem alookup_aupdate_of_not_mem {α : Type} (other : List (String × α)) :
    ∀ (d : List (String × α)) (k : String), k ∉ other.map Prod.fst →
      alookup (aupdate d other) k = alookup d k := by
  induction other with
  | nil => intro d k _; rfl
  | cons hd tl ih =>
    intro d k h
    obtain ⟨a, b⟩ := hd
    simp only [List.map_cons, List.mem_cons, not_or] at h
    rw [aupdate_cons, ih _ _ h.2, alookup_aset,
      if_neg (fun h2 => h.1 h2.symm)]

theorem alookup_aupdate_of_mem {α : Type} (other : List (String × α)) :
    ∀ (d : List (String × α)) (k : String) (v : α),
      (other.map Prod.fst).Nodup → alookup other k = some v →
      alookup (aupdate d other) k = some v := by
  induction other with
  | nil => intro d k v _ h; simp [alookup] at h
  | cons hd tl ih =>
    intro d k v hnd h
    obtain ⟨a, b⟩ := hd
    simp only [List.map_cons, List.nodup_cons] at hnd
    simp only [alookup] at h
    by_cases hak : a = k
    · subst hak
      simp at h
      subst h
      rw [aupdate_cons, alookup_aupdate_of_not_mem tl _ _ hnd.1,
        alookup_aset, if_pos rfl]
    · simp only [if_neg hak] at h
      rw [aupdate_cons]
      exact ih _ _ _ hnd.2 h

/-! ### State transition lemmas -/

theorem step_setAttr_json (fields : List (String × Mode)) (st : BaseState)
    (f : String) (v : Val) : (step fields st (.setAttr f v)).json = st.json := by
  cases hm : alookup fields f with
  | none => simp [step, setField, hm]
  | some m => cases m <;> simp [step, setField, hm, attrSet]

theorem overlayWritable_step (fields : List (String × Mode)) (st : BaseState)
    (op : Op) (h : overlayWritable fields st) :
    overlayWritable fields (step fields st op) := by
  cases op with
  | setAttr f v =>
    cases hm : alookup fields f with
    | none => simpa [step, setField, hm] using h
    | some m =>
      cases m with
      | rw =>
        intro k hk
        simp only [step, setField, hm, attrSet] at hk
        rcases mem_keys_aset st.changes f k v hk with rfl | hk2
        · exact Or.inl hm
        · exact h k hk2
      | ro => simpa [step, setField, hm] using h
      | wo =>
        intro k hk
        simp only [step, setField, hm, attrSet] at hk
        rcases mem_keys_aset st.changes f k v hk with rfl | hk2
        · exact Or.inr hm
        · exact h k hk2
  | sync reply =>
    intro k hk
    simp [step, commit] at hk
  | syncFail e => simpa [step] using h

theorem overlayWritable_runOps (fields : List (String × Mode)) (ops : List Op) :
    ∀ st : BaseState, overlayWritable fields st →
      overlayWritable fields (runOps fields st ops) := by
  induction ops with
  | nil => intro st h; exact h
  | cons op rest ih =>
    intro st h
    exact ih (step fields st op) (overlayWritable_step fields st op h)

/-! ### Flattening lemmas -/

theorem recursiveItems_append (xs ys : List (String × Val)) (path : List String) :
    recursiveItems (xs ++ ys) path =
      recursiveItems xs path ++ recursiveItems ys path := by
  induction xs generalizing path with
  | nil => simp [recursiveItems]
  | cons hd tl ih =>
    obtain ⟨k, v⟩ := hd
    cases v <;> simp [recursiveItems, ih]

theorem recursiveItems_deepNest (path : List String) (n : Int) :
    ∀ p0 : List String, path ≠ [] →
      recursiveItems (deepNest path (Val.int n)) p0 = [(p0 ++ path, Val.int n)] := by
  induction path with
  | nil => intro p0 h; exact absurd rfl h
  | cons k rest ih =>
    intro p0 _
    cases rest with
    | nil => simp [deepNest, recursiveItems]
    | cons k2 r2 =>
      simp only [deepNest, recursiveItems]
      rw [ih (p0 ++ [k]) (by simp)]
      simp

/-! ### Claim C1 -/

/-- Claim C1 counterexample: `commit` does not replace the baseline
entirely. With baseline holding `a = 1` and a server reply containing
only `b = 2`, the field `a` is absent from the reply yet still
readable with its old value afterwards, because `Base.update` performs
`self._json.update(reply)` — a dictionary merge, not a replacement. -/
theorem commit_does_not_replace_baseline :
    attrGet (commit ⟨[("a", Val.int 1)], []⟩ [("b", Val.int 2)]) "a" =
      .ok (.int 1) ∧
    alookup [(("b" : String), Val.int 2)] "a" = none := ⟨rfl, rfl⟩

/-- Claim C1 (amended): `commit(merged_data)` merges `merged_data` into
the baseline (Python `dict.update`) and clears the overlay; immediately
afterwards the overlay is empty and `get(f)` for every field `f`
present in `merged_data` (a dictionary, hence with distinct keys)
returns the value from `merged_data`; fields of the old baseline absent
from `merged_data` survive with their old values rather than being
dropped. -/
theorem commit_merges_baseline (st : BaseState) (md : List (String × Val))
    (hnd : (md.map Prod.fst).Nodup) :
    (commit st md).changes = [] ∧
    (∀ f v, alookup md f = some v → attrGet (commit st md) f = .ok v) ∧
    (∀ f, alookup md f = none →
      alookup (commit st md).json f = alookup st.json f) := by
  refine ⟨rfl, ?_, ?_⟩
  · intro f v h
    have h2 : alookup (aupdate st.json md) f = some v :=
      alookup_aupdate_of_mem md st.json f v hnd h
    simp [attrGet, commit, alookup, h2]
  · intro f h
    have hnm : f ∉ md.map Prod.fst := by
      rw [← alookup_eq_none]
      exact h
    simp [commit, alookup_aupdate_of_not_mem md st.json f hnm]

/-- Claim C1 witness: the amended commit behaviour at a concrete
input. -/
theorem commit_merges_baseline_witness :
    (commit ⟨[("a", Val.int 1)], []⟩ [("b", Val.int 2)]).changes = [] :=
  (commit_merges_baseline ⟨[("a", Val.int 1)], []⟩ [("b", Val.int 2)]
    (by simp)).1

/-! ### Claim C2 -/

/-- Claim C3 counterexample: set-then-get does NOT succeed regardless
of whether the field is present in the baseline. On a Job with empty
baseline, `set(title, T)` stores into the overlay, but the following
`get(title)` raises `KeyError`: the `dict.get` default
`self._json[self.name]` is evaluated eagerly, so the baseline lookup
fails before the overlay value is ever consulted. -/
theorem rw_get_missing_baseline_raises :
    setField jobFields ⟨[], []⟩ "title" (Val.str "T") =
      .ok ⟨[], [("title", Val.str "T")]⟩ ∧
    getField jobFields ⟨[], [("title", Val.str "T")]⟩ "title" =
      .error (.keyError "title") := ⟨rfl, rfl⟩

/-- Claim C3 (amended): for every declared read-write field `f` and
value `v`, on a record whose baseline contains `f`, `set(f, v)`
followed by `get(f)` returns `v`, and `f` appears in the overlay
(`snapshot_changes`); a read of such a field returns the overlay value
if present, else the baseline value. When `f` is absent from the
baseline the read raises `KeyError` instead (see the counterexample),
because the baseline lookup inside `dict.get` is evaluated eagerly. -/
theorem rw_set_get (fields : List (String × Mode)) (st : BaseState)
    (f : String) (v : Val) (h : alookup fields f = some .rw)
    (b : Val) (hb : alookup st.json f = some b) :
    (∃ st2, setField fields st f v = .ok st2 ∧
      getField fields st2 f = .ok v ∧ f ∈ st2.changes.map Prod.fst) ∧
    (∀ w, alookup st.changes f = some w → getField fields st f = .ok w) ∧
    (alookup st.changes f = none → getField fields st f = .ok b) := by
  refine ⟨⟨attrSet st f v, ?_, ?_, ?_⟩, ?_, ?_⟩
  · simp [setField, h]
  · simp [getField, h, attrGet, attrSet, alookup_aset, hb]
  · exact mem_keys_of_alookup _ f v (by simp [attrSet, alookup_aset])
  · intro w hw
    simp [getField, h, attrGet, hb, hw]
  · intro hn
    simp [getField, h, attrGet, hb, hn]

/-- Claim C3 witness: set-then-get on the read-write field `title` of a
Job whose baseline already holds a `title`. -/
theorem rw_set_get_witness :
    alookup jobFields "title" = some Mode.rw ∧
    alookup (BaseState.mk [("title", Val.str "old")] []).json "title" =
      some (Val.str "old") ∧
    (∃ st2, setField jobFields ⟨[("title", Val.str "old")], []⟩ "title"
        (Val.str "T") = .ok st2 ∧
      getField jobFields st2 "title" = .ok (Val.str "T") ∧
      "title" ∈ st2.changes.map Prod.fst) :=
  ⟨rfl, rfl, (rw_set_get jobFields ⟨[("title", Val.str "old")], []⟩ "title"
    (Val.str "T") rfl (Val.str "old") rfl).1⟩

/-! ### Claim C4 -/

/-- Claim C4 counterexample: a Job whose `title`, `instructions` and
`cml` are all empty fails validation naming only ONE missing field
(whichever the set iteration visits first; here modelled as `title`),
not all three as the claim requires: the raised `RuntimeError` message
interpolates a single attribute name. The no-network-call part holds:
the recorded call list is empty. -/
theorem validation_names_single_field :
    jobUpdate ⟨[("title", Val.str ""), ("instructions", Val.str ""),
        ("cml", Val.str "")], []⟩ (fun _ => .ok []) =
      ((⟨[("title", Val.str ""), ("instructions", Val.str ""),
        ("cml", Val.str "")], []⟩, some (.missingRequired "title")), []) ∧
    errNames (.missingRequired "title") = ["title"] ∧
    "instructions" ∉ errNames (.missingRequired "title") ∧
    "cml" ∉ errNames (.missingRequired "title") :=
  ⟨rfl, rfl, by decide, by decide⟩

/-- Claim C4 (amended): when every required core field of a Job reads
as empty after applying pending changes over the baseline, synchronize
fails with the validation error naming one of the missing required
fields (the first one iterated) — not all of them — and no network
call is made. -/
theorem required_all_missing_names_one (st : BaseState)
    (send : List (String × Val) → Except CfError (List (String × Val)))
    (h : ∀ a ∈ jobRequiredAttrs, ∃ v, attrGet st a = .ok v ∧ v.falsy = true) :
    ∃ a ∈ jobRequiredAttrs,
      jobUpdate st send = ((st, some (.missingRequired a)), []) := by
  obtain ⟨v, hv, hf⟩ := h "title" (by simp [jobRequiredAttrs])
  refine ⟨"title", by simp [jobRequiredAttrs], ?_⟩
  simp [jobUpdate, checkRequired, jobRequiredAttrs, hv, hf]

/-- Claim C4 witness: the amended validation behaviour on the concrete
baseline with all three required fields empty. -/
theorem required_all_missing_names_one_witness :
    ∃ a ∈ jobRequiredAttrs,
      jobUpdate ⟨[("title", Val.str ""), ("instructions", Val.str ""),
        ("cml", Val.str "")], []⟩ (fun _ => .ok []) =
      ((⟨[("title", Val.str ""), ("instructions", Val.str ""),
        ("cml", Val.str "")], []⟩, some (.missingRequired a)), []) :=
  required_all_missing_names_one _ _ (by
    intro a ha
    simp only [jobRequiredAttrs, List.mem_cons, List.not_mem_nil,
      or_false] at ha
    rcases ha with rfl | rfl | rfl <;> exact ⟨Val.str "", rfl, rfl⟩)

/-! ### Claim C5 -/

/-- Claim C5: attribute flattening produces exactly the bracketed-path
parameter names with values unchanged; it supports arbitrary nesting
depth (witnessed by singleton chains of any length) and does not
reorder sibling keys (the traversal distributes over list append,
preserving input order); in particular flattening the two-key options
map under resource type job yields exactly the two expected
parameters, in input order. -/
theorem flatten_bracketed :
    (mkCfAttrs "job" [("options", Val.dict [("a", Val.int 1), ("b", Val.int 2)])] =
      [("job[options][a]", Val.int 1), ("job[options][b]", Val.int 2)]) ∧
    (∀ (t : String) (attrs : List (String × Val)) (p : List String) (v : Val),
      (p, v) ∈ recursiveItems attrs [] → (fmtAttr t p, v) ∈ mkCfAttrs t attrs) ∧
    (∀ (t : String) (path : List String) (n : Int), path ≠ [] →
      mkCfAttrs t (deepNest path (Val.int n)) = [(fmtAttr t path, Val.int n)]) ∧
    (∀ (xs ys : List (String × Val)) (path : List String),
      recursiveItems (xs ++ ys) path =
        recursiveItems xs path ++ recursiveItems ys path) := by
  refine ⟨?_, ?_, ?_, recursiveItems_append⟩
  · simp [mkCfAttrs, recursiveItems, fmtAttr, joinBrackets]
  · intro t attrs p v h
    exact List.mem_map.mpr ⟨(p, v), h, rfl⟩
  · intro t path n h
    simp [mkCfAttrs, recursiveItems_deepNest path n [] h]

/-- Claim C5 witness: a depth-two singleton chain flattens to the
single bracketed parameter. -/
theorem flatten_bracketed_witness :
    mkCfAttrs "job" (deepNest ["options", "a"] (Val.int 1)) =
      [(fmtAttr "job" ["options", "a"], Val.int 1)] :=
  flatten_bracketed.2.2.1 "job" ["options", "a"] 1 (by simp)

/-! ### Claim C6 -/

/-- Claim C6: when the remote update invoked during synchronize fails,
`Base.update` propagates the error and local state is exactly as
before the call — the baseline is unmodified and the overlay is not
cleared, because `self._json.update` never runs once its argument
raises; and a transport failure is wrapped by `Client.call` into the
remote error carrying the underlying cause in its message. -/
theorem sync_failure_state_unchanged (st : BaseState)
    (send : List (String × Val) → Except CfError (List (String × Val)))
    (e : CfError) (h : send st.changes = .error e) :
    baseUpdate st send = (st, some e) ∧
    (∀ msg, callResult (.exn msg) =
      .error (.apiError ("Api request failed: " ++ msg))) := by
  refine ⟨?_, fun msg => rfl⟩
  simp [baseUpdate, h]

/-- Claim C6 witness: a failing send leaves concrete baseline and
overlay untouched. -/
theorem sync_failure_state_unchanged_witness :
    baseUpdate ⟨[("a", Val.int 1)], [("title", Val.str "T")]⟩
      (fun _ => .error (.apiError "boom")) =
      (⟨[("a", Val.int 1)], [("title", Val.str "T")]⟩,
        some (.apiError "boom")) :=
  (sync_failure_state_unchanged ⟨[("a", Val.int 1)], [("title", Val.str "T")]⟩
    (fun _ => .error (.apiError "boom")) (.apiError "boom") rfl).1

/-! ### Claim C7 -/

/-- Claim C7 counterexample: the overlay can hold a key that is not a
declared read-write field. Assigning the write-only `uri` attribute of
a Job stores into the overlay (`WoAttribute` inherits
`Attribute.__set__`), so the overlay key set is not a subset of the
read-write field names. -/
theorem overlay_key_not_rw :
    (step jobFields ⟨[], []⟩ (.setAttr "uri" (Val.str "x"))).changes.map
      Prod.fst = ["uri"] ∧
    alookup jobFields "uri" = some Mode.wo ∧
    ¬ overlayRW jobFields (step jobFields ⟨[], []⟩ (.setAttr "uri" (Val.str "x"))) := by
  refine ⟨rfl, rfl, fun h => ?_⟩
  exact absurd (h "uri" (by decide)) (by decide)

/-- Claim C7 (amended): every operation on a change-tracked record
preserves the invariant that overlay keys are declared read-write OR
write-only fields, and the baseline is never mutated except by
synchronization: attribute assignment (successful or failing) and a
failed synchronization leave the baseline untouched. -/
theorem overlay_writable_invariant (fields : List (String × Mode))
    (st : BaseState) (ops : List Op) (h : overlayWritable fields st) :
    overlayWritable fields (runOps fields st ops) ∧
    (∀ f v, (step fields st (.setAttr f v)).json = st.json) ∧
    (∀ e, (step fields st (.syncFail e)).json = st.json) :=
  ⟨overlayWritable_runOps fields ops st h,
    fun f v => step_setAttr_json fields st f v, fun _ => rfl⟩

/-- Claim C7 witness: the amended invariant after a concrete write and
commit on a Job. -/
theorem overlay_writable_invariant_witness :
    overlayWritable jobFields
      (runOps jobFields ⟨[], []⟩
        [.setAttr "title" (Val.str "T"), .sync [("id", Val.int 1)]]) :=
  (overlay_writable_invariant jobFields ⟨[], []⟩
    [.setAttr "title" (Val.str "T"), .sync [("id", Val.int 1)]]
    (by intro k hk; simp at hk)).1

/-! ### Claim C8 -/

/-- Claim C8: for every declared write-only field `f` and value `v`,
`set(f, v)` succeeds; a public `get(f)` then fails with the write-only
error naming `f`; yet `v` sits in the overlay, and the overlay is
exactly the change set handed to the remote service by a subsequent
synchronize that passes validation. -/
theorem wo_set_get (fields : List (String × Mode)) (st : BaseState)
    (f : String) (v : Val) (h : alookup fields f = some .wo) :
    ∃ st2, setField fields st f v = .ok st2 ∧
      getField fields st2 f = .error (.writeOnlyField f) ∧
      alookup st2.changes f = some v ∧
      (∀ send, checkRequired st2 jobRequiredAttrs = .ok () →
        (jobUpdate st2 send).2 = [st2.changes]) := by
  refine ⟨attrSet st f v, ?_, ?_, ?_, ?_⟩
  · simp [setField, h]
  · simp [getField, h]
  · simp [attrSet, alookup_aset]
  · intro send hreq
    simp [jobUpdate, hreq]

/-- Claim C8 witness: the write-only `uri` field of a Job. -/
theorem wo_set_get_witness :
    alookup jobFields "uri" = some Mode.wo ∧
    ∃ st2, setField jobFields ⟨[("title", Val.str "T")], []⟩ "uri"
        (Val.str "u") = .ok st2 ∧
      getField jobFields st2 "uri" = .error (.writeOnlyField "uri") ∧
      alookup st2.changes "uri" = some (Val.str "u") ∧
      (∀ send, checkRequired st2 jobRequiredAttrs = .ok () →
        (jobUpdate st2 send).2 = [st2.changes]) :=
  ⟨rfl, wo_set_get jobFields ⟨[("title", Val.str "T")], []⟩ "uri"
    (Val.str "u") rfl⟩

/-! ### Claim C9 -/

/-- Claim C9: for every declared read-only field `f`, any `set(f, v)`
fails with the immutable-field error naming `f`; the record state is
unchanged, so a subsequent read of `f` returns the same (baseline)
value as before the attempt. -/
theorem ro_set_fails (fields : List (String × Mode)) (st : BaseState)
    (f : String) (v : Val) (h : alookup fields f = some .ro) :
    setField fields st f v = .error (.immutableField f) ∧
    step fields st (.setAttr f v) = st ∧
    getField fields (step fields st (.setAttr f v)) f = getField fields st f := by
  have h1 : setField fields st f v = .error (.immutableField f) := by
    simp [setField, h]
  have h2 : step fields st (.setAttr f v) = st := by
    simp [step, h1]
  exact ⟨h1, h2, by rw [h2]⟩

/-- Claim C9 witness: refusing assignment to the read-only `id` field
of a Job leaves its baseline value readable. -/
theorem ro_set_fails_witness :
    alookup jobFields "id" = some Mode.ro ∧
    setField jobFields ⟨[("id", Val.int 5)], []⟩ "id" (Val.int 9) =
      .error (.immutableField "id") ∧
    getField jobFields
        (step jobFields ⟨[("id", Val.int 5)], []⟩ (.setAttr "id" (Val.int 9)))
        "id" =
      getField jobFields ⟨[("id", Val.int 5)], []⟩ "id" :=
  ⟨rfl, (ro_set_fails jobFields ⟨[("id", Val.int 5)], []⟩ "id" (Val.int 9)
      rfl).1,
    (ro_set_fails jobFields ⟨[("id", Val.int 5)], []⟩ "id" (Val.int 9)
      rfl).2.2⟩

/-! ### Claim C10 -/

/-- Claim C10 counterexample: item access does NOT return the overlay
value for every key present in the overlay. For a key held only in the
overlay, `Base.__getitem__` raises `KeyError`: the `dict.get` default
`self._json[item]` is evaluated eagerly, so the baseline lookup fails
before the overlay value is consulted. -/
theorem getitem_overlay_only_raises :
    alookup (BaseState.mk [] [("uri", Val.str "u")]).changes "uri" =
      some (Val.str "u") ∧
    getItem ⟨[], [("uri", Val.str "u")]⟩ "uri" =
      .error (.keyError "uri") := ⟨rfl, rfl⟩

/-- Claim C10 (amended): item access (`resource[key]`) bypasses all
access-mode checks. `Base.__getitem__` consults no descriptor: for
every key present in the baseline — including keys declared read-only
or write-only — it returns the overlay value when the key is also in
the overlay, else the baseline value, and it can never produce a mode
error (its only failure is a `KeyError`). A key absent from the
baseline raises `KeyError` even when the overlay holds it, because the
baseline lookup inside `dict.get` is evaluated eagerly. -/
theorem getitem_no_mode_checks (st : BaseState) (k : String) :
    (∀ b, alookup st.json k = some b →
      (∀ v, alookup st.changes k = some v → getItem st k = .ok v) ∧
      (alookup st.changes k = none → getItem st k = .ok b)) ∧
    (alookup st.json k = none → getItem st k = .error (.keyError k)) ∧
    (∀ f, getItem st k ≠ .error (.immutableField f) ∧
      getItem st k ≠ .error (.writeOnlyField f)) := by
  refine ⟨?_, ?_, ?_⟩
  · intro b hb
    constructor
    · intro v hv
      simp [getItem, hb, hv]
    · intro hn
      simp [getItem, hb, hn]
  · intro hn
    simp [getItem, hn]
  · intro f
    unfold getItem
    cases h1 : alookup st.json k with
    | none => simp
    | some b =>
      cases h2 : alookup st.changes k with
      | some v => simp
      | none => simp

/-- Claim C10 witness: item access reads the write-only key `uri` from
the overlay of a Job whose baseline also has `uri`, without a mode
error. -/
theorem getitem_no_mode_checks_witness :
    alookup (BaseState.mk [("uri", Val.str "old")] [("uri", Val.str "u")]).json
      "uri" = some (Val.str "old") ∧
    getItem ⟨[("uri", Val.str "old")], [("uri", Val.str "u")]⟩ "uri" =
      .ok (Val.str "u") :=
  ⟨rfl, ((getitem_no_mode_checks
    ⟨[("uri", Val.str "old")], [("uri", Val.str "u")]⟩ "uri").1
    (Val.str "old") rfl).1 (Val.str "u") rfl⟩

end Crowdflower
